import Mathlib

/-!
Verification of the NVIDIA provider adapter
(`app/lib/modules/llm/providers/nvidia.ts`).

The adapter has three responsibilities: a static model catalog, a dynamic
catalog fetch that filters and reshapes the remote `/models` response, and
client construction.  All of them are embedded shallowly below: the remote
response body and the outcome of credential resolution become explicit
parameters, network effects become an explicit list of issued requests, and
the JavaScript truthiness checks of the source are modelled explicitly.
-/

namespace Nvidia

/-- Boolean test that one character list occurs as a contiguous sublist of
another; used to embed JavaScript `String.prototype.includes`. -/
def listContains (pat : List Char) : List Char → Bool
  | [] => pat.isPrefixOf []
  | c :: rest => pat.isPrefixOf (c :: rest) || listContains pat rest

/-- Embedding of JavaScript `id.includes(pat)` on strings. -/
def strIncl (s pat : String) : Bool :=
  listContains pat.data s.data

/-- Embedding of JavaScript `id.startsWith(pre)` on strings. -/
def strStarts (s pre : String) : Bool :=
  pre.data.isPrefixOf s.data

/-- A model descriptor as produced by the adapter (the `ModelInfo` shape of
the source: `name`, `label`, `provider`, `maxTokenAllowed`,
`maxCompletionTokens`). -/
structure ModelInfo where
  name : String
  label : String
  provider : String
  maxTokenAllowed : Nat
  maxCompletionTokens : Nat
  deriving Repr, DecidableEq

/-- A record of the remote `/models` response: `id`, `object`, and the
optional `context_length` field. -/
structure RemoteRecord where
  id : String
  object : String
  context_length : Option Nat
  deriving Repr, DecidableEq

/-- The static catalog `staticModels` of the source, in source order. -/
def staticModels : List ModelInfo :=
  [ { name := "gpt-4o", label := "GPT-4o", provider := "NVIDIA",
      maxTokenAllowed := 128000, maxCompletionTokens := 4096 },
    { name := "gpt-4o-mini", label := "GPT-4o Mini", provider := "NVIDIA",
      maxTokenAllowed := 128000, maxCompletionTokens := 4096 },
    { name := "gpt-3.5-turbo", label := "GPT-3.5 Turbo", provider := "NVIDIA",
      maxTokenAllowed := 16000, maxCompletionTokens := 4096 },
    { name := "o1-preview", label := "o1-preview", provider := "NVIDIA",
      maxTokenAllowed := 128000, maxCompletionTokens := 32000 },
    { name := "o1-mini", label := "o1-mini", provider := "NVIDIA",
      maxTokenAllowed := 128000, maxCompletionTokens := 65000 },
    { name := "qwen/qwen3-coder-480b-a35b-instruct", label := "Qwen3 Coder 480B",
      provider := "NVIDIA", maxTokenAllowed := 32000, maxCompletionTokens := 8192 },
    { name := "moonshotai/kimi-k2-instruct-0905", label := "Kimi K2 Instruct",
      provider := "NVIDIA", maxTokenAllowed := 32000, maxCompletionTokens := 8192 } ]

/-- The identifiers of the static catalog
(`this.staticModels.map((m) => m.name)` in the source). -/
def staticModelIds : List String :=
  staticModels.map (fun m => m.name)

/-- The filter predicate of `getDynamicModels`:
`model.object === "model" && (model.id.startsWith("gpt-") ||
model.id.startsWith("o") || model.id.startsWith("chatgpt-")) &&
!staticModelIds.includes(model.id)`. -/
def filterKeeps (m : RemoteRecord) : Bool :=
  m.object == "model" &&
  (strStarts m.id "gpt-" || strStarts m.id "o" || strStarts m.id "chatgpt-") &&
  !(staticModelIds.contains m.id)

/-- The tiered substring heuristic of `getDynamicModels` for the context
window, used when `context_length` is absent (or falsy). -/
def contextHeuristic (id : String) : Nat :=
  if strIncl id "gpt-4o" then 128000
  else if strIncl id "gpt-4-turbo" || strIncl id "gpt-4-1106" then 128000
  else if strIncl id "gpt-4" then 8192
  else if strIncl id "gpt-3.5-turbo" then 16385
  else 32000

/-- The context-window computation of `getDynamicModels`: `context_length`
when present and truthy (a JavaScript `if (m.context_length)` check,
so a zero value falls through), otherwise the substring heuristic. -/
def contextWindowOf (m : RemoteRecord) : Nat :=
  match m.context_length with
  | some c => if c ≠ 0 then c else contextHeuristic m.id
  | none => contextHeuristic m.id

/-- The completion-token heuristic of `getDynamicModels`, evaluated
top-to-bottom exactly as the source's `if`/`else if` chain. -/
def maxCompletionTokensOf (id : String) : Nat :=
  if strStarts id "o1-preview" then 32000
  else if strStarts id "o1-mini" then 65000
  else if strStarts id "o1" then 32000
  else if strIncl id "o3" || strIncl id "o4" then 100000
  else if strIncl id "gpt-4o" then 4096
  else if strIncl id "gpt-4" then 8192
  else if strIncl id "gpt-3.5-turbo" then 4096
  else 4096

/-- The per-record transformation of `getDynamicModels`: the returned object
literal, with the label built from the uncapped context window and
`maxTokenAllowed` capped by `Math.min(contextWindow, 128000)`. -/
def transformModel (m : RemoteRecord) : ModelInfo :=
  let contextWindow := contextWindowOf m
  { name := m.id,
    label := m.id ++ " (" ++ toString (contextWindow / 1000) ++ "k context)",
    provider := "NVIDIA",
    maxTokenAllowed := min contextWindow 128000,
    maxCompletionTokens := maxCompletionTokensOf m.id }

/-- The pure core of `getDynamicModels`: filter the `data` array of the
remote response, then map each kept record to a descriptor. -/
def dynamicCatalog (data : List RemoteRecord) : List ModelInfo :=
  (data.filter filterKeeps).map transformModel

/-- JavaScript truthiness of an optional string: `undefined` and the empty
string are falsy, any other string is truthy. -/
def jsTruthy : Option String → Bool
  | none => false
  | some s => !s.isEmpty

/-- The three credential sources a call can carry for one field (explicit
request-level value, stored per-provider setting, server-environment
value), each possibly absent. -/
structure CredentialSources where
  explicitApiKey : Option String
  explicitBaseUrl : Option String
  settingsApiKey : Option String
  settingsBaseUrl : Option String
  envApiKey : Option String
  envBaseUrl : Option String
  deriving Repr, DecidableEq

/-- Modelled from the spec: the external settings-resolution capability
`getProviderBaseUrlAndKey` (the provider base class, not part of the
source tree) picks the first source in precedence order explicit >
stored setting > server environment; a value that is absent or falsy
(empty) in a JavaScript `||` chain does not resolve. -/
def resolveFirst (a b c : Option String) : Option String :=
  if jsTruthy a then a else if jsTruthy b then b else if jsTruthy c then c else none

/-- Modelled from the spec: the API key resolved by
`getProviderBaseUrlAndKey` from the three credential sources. -/
def resolveApiKey (s : CredentialSources) : Option String :=
  resolveFirst s.explicitApiKey s.settingsApiKey s.envApiKey

/-- Modelled from the spec: the base URL resolved by
`getProviderBaseUrlAndKey` from the three credential sources. -/
def resolveBaseUrl (s : CredentialSources) : Option String :=
  resolveFirst s.explicitBaseUrl s.settingsBaseUrl s.envBaseUrl

/-- The result of the dynamic fetch: either a thrown value (the source
throws a plain string) or a list of descriptors. -/
inductive FetchResult where
  | thrown (msg : String)
  | ok (models : List ModelInfo)
  deriving Repr, DecidableEq

/-- One observed run of `getDynamicModels`: its result together with the
URLs of the HTTP GET requests it issued, in order. -/
structure FetchOutcome where
  result : FetchResult
  networkCalls : List String
  deriving Repr, DecidableEq

/-- Embedding of `getDynamicModels`: resolve credentials, throw the plain
string `Missing API Key configuration for NVIDIA API` when no key is
truthy (issuing no request), otherwise GET `baseUrl + "/models"` (or the
default endpoint when no base URL is truthy) and filter/map the `data`
array of the response, which is an explicit parameter here. -/
def getDynamicModels (s : CredentialSources) (data : List RemoteRecord) :
    FetchOutcome :=
  let apiKey := resolveApiKey s
  let baseUrl := resolveBaseUrl s
  if !(jsTruthy apiKey) then
    { result := .thrown "Missing API Key configuration for NVIDIA API",
      networkCalls := [] }
  else
    let modelsUrl :=
      match baseUrl with
      | some b => if jsTruthy (some b) then b ++ "/models"
                  else "https://integrate.api.nvidia.com/v1/models"
      | none => "https://integrate.api.nvidia.com/v1/models"
    { result := .ok (dynamicCatalog data),
      networkCalls := [modelsUrl] }

/-- The hardcoded fallback API key of `getModelInstance`. -/
def hardcodedApiKey : String :=
  "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"

/-- The client handle built by `createOpenAI(...)(model)`: the arguments
the adapter binds into the external client factory. -/
structure ClientHandle where
  baseURL : String
  apiKey : String
  authHeader : String
  model : String
  deriving Repr, DecidableEq

/-- Embedding of `getModelInstance`: resolve the base URL and (in a second
identical resolution call) the API key, substitute the hardcoded key when
the resolved key is not truthy, and return the handle bound to
`baseUrl || "https://integrate.api.nvidia.com/v1"`, the key, and the
bearer header.  The construction is total: it never throws. -/
def getModelInstance (model : String) (s : CredentialSources) : ClientHandle :=
  let baseUrl := resolveBaseUrl s
  let apiKey0 := resolveApiKey s
  let apiKey := if !(jsTruthy apiKey0) then hardcodedApiKey else apiKey0.getD ""
  { baseURL :=
      match baseUrl with
      | some b => if jsTruthy (some b) then b else "https://integrate.api.nvidia.com/v1"
      | none => "https://integrate.api.nvidia.com/v1",
    apiKey := apiKey,
    authHeader := "Bearer " ++ apiKey,
    model := model }

/-- Test that an identifier begins with the letter `o` followed by a digit:
the naming-pattern clause of the specification's filtering policy, written
from the spec's words for comparison with the source's filter. -/
def startsWithODigit (id : String) : Bool :=
  match id.data with
  | 'o' :: c :: _ => c.isDigit
  | _ => false

/-- The filter predicate as the specification words it: object `model`,
identifier starting with `gpt-`, `chatgpt-`, or `o` followed by a digit,
and identifier outside the static catalog. -/
def specFilterKeeps (m : RemoteRecord) : Bool :=
  m.object == "model" &&
  (strStarts m.id "gpt-" || strStarts m.id "chatgpt-" || startsWithODigit m.id) &&
  !(staticModelIds.contains m.id)

/-- The filter predicate with the naming clause amended to what the source
checks: an identifier starting with the bare letter `o` (any continuation),
not only `o` followed by a digit. -/
def amendedFilterKeeps (m : RemoteRecord) : Bool :=
  m.object == "model" &&
  (strStarts m.id "gpt-" || strStarts m.id "chatgpt-" || strStarts m.id "o") &&
  !(staticModelIds.contains m.id)

theorem amendedFilterKeeps_eq (m : RemoteRecord) :
    amendedFilterKeeps m = filterKeeps m := by
  unfold amendedFilterKeeps filterKeeps
  cases strStarts m.id "gpt-" <;> cases strStarts m.id "o" <;>
    cases strStarts m.id "chatgpt-" <;> simp

/-- Resolution only ever returns a truthy (non-empty) string: the
precedence chain skips absent and empty values. -/
theorem jsTruthy_resolveFirst (a b c : Option String) (u : String)
    (h : resolveFirst a b c = some u) : jsTruthy (some u) = true := by
  unfold resolveFirst at h
  split at h
  case isTrue ht => exact h ▸ ht
  case isFalse =>
    split at h
    case isTrue ht => exact h ▸ ht
    case isFalse =>
      split at h
      case isTrue ht => exact h ▸ ht
      case isFalse => exact Option.noConfusion h

/-- Prefix tests compose: if `b` starts with `a` and `s` starts with `b`,
then `s` starts with `a`. -/
theorem strStarts_of_strStarts (s a b : String)
    (hab : strStarts b a = true) (h : strStarts s b = true) :
    strStarts s a = true := by
  unfold strStarts at *
  rw [List.isPrefixOf_iff_prefix] at *
  exact hab.trans h

/-- C1, counterexample: the record `{id: "omega", object: "model"}` fails
the claimed naming pattern (`omega` is not `gpt-`, not `chatgpt-`, and not
`o` followed by a digit), yet the source's dynamic fetch keeps it — its
filter tests `id.startsWith("o")` — and produces a descriptor for it. -/
theorem C1_counterexample :
    specFilterKeeps (⟨"omega", "model", none⟩ : RemoteRecord) = false ∧
    dynamicCatalog [(⟨"omega", "model", none⟩ : RemoteRecord)] =
      [{ name := "omega", label := "omega (32k context)", provider := "NVIDIA",
         maxTokenAllowed := 32000, maxCompletionTokens := 4096 }] := by
  decide

/-- C1 (amended): the dynamic catalog consists of exactly one transformed
descriptor per record whose object is `model`, whose id starts with
`gpt-`, `chatgpt-`, or the letter `o` (any continuation, not only a
digit), and whose id is not a static-catalog identifier, in response
order; every other record is excluded. -/
theorem C1_dynamic_filter (data : List RemoteRecord) :
    dynamicCatalog data = (data.filter amendedFilterKeeps).map transformModel := by
  unfold dynamicCatalog
  congr 1
  exact List.filter_congr fun m _ => (amendedFilterKeeps_eq m).symm

/-- C2: when no API key resolves from the three credential sources, client
construction still returns a handle, with the hardcoded fallback secret as
its API key and in its bearer header. -/
theorem C2_hardcoded_fallback (model : String) (s : CredentialSources)
    (h : resolveApiKey s = none) :
    (getModelInstance model s).apiKey = hardcodedApiKey ∧
    (getModelInstance model s).authHeader = "Bearer " ++ hardcodedApiKey := by
  simp only [getModelInstance, h]
  exact ⟨rfl, rfl⟩

theorem C2_hardcoded_fallback_witness :
    (getModelInstance "gpt-4o"
        { explicitApiKey := none, explicitBaseUrl := none, settingsApiKey := none,
          settingsBaseUrl := none, envApiKey := none, envBaseUrl := none }).apiKey =
      hardcodedApiKey ∧
    (getModelInstance "gpt-4o"
        { explicitApiKey := none, explicitBaseUrl := none, settingsApiKey := none,
          settingsBaseUrl := none, envApiKey := none, envBaseUrl := none }).authHeader =
      "Bearer " ++ hardcodedApiKey :=
  C2_hardcoded_fallback "gpt-4o" _ (by decide)

/-- C3: when no API key resolves, the dynamic fetch throws the plain string
`Missing API Key configuration for NVIDIA API` and issues no network
request, whatever the remote response would have been. -/
theorem C3_missing_key (s : CredentialSources) (data : List RemoteRecord)
    (h : resolveApiKey s = none) :
    getDynamicModels s data =
      { result := .thrown "Missing API Key configuration for NVIDIA API",
        networkCalls := [] } := by
  simp only [getDynamicModels, h]
  rfl

theorem C3_missing_key_witness :
    getDynamicModels
        { explicitApiKey := none, explicitBaseUrl := none, settingsApiKey := none,
          settingsBaseUrl := none, envApiKey := none, envBaseUrl := none }
        [(⟨"gpt-4o-2025", "model", none⟩ : RemoteRecord)] =
      { result := .thrown "Missing API Key configuration for NVIDIA API",
        networkCalls := [] } :=
  C3_missing_key _ _ (by decide)

/-- C4: every descriptor the adapter produces — each static-catalog entry
and each descriptor of any dynamic fetch, whatever `context_length` the
remote reports — has `maxTokenAllowed` at most 128000. -/
theorem C4_context_cap (data : List RemoteRecord) (d : ModelInfo)
    (h : d ∈ staticModels ∨ d ∈ dynamicCatalog data) :
    d.maxTokenAllowed ≤ 128000 := by
  rcases h with h | h
  · simp only [staticModels, List.mem_cons, List.not_mem_nil, or_false] at h
    rcases h with h | h | h | h | h | h | h <;> subst h <;> decide
  · simp only [dynamicCatalog, List.mem_map] at h
    obtain ⟨m, _, rfl⟩ := h
    exact Nat.min_le_right _ _

theorem C4_context_cap_witness :
    (transformModel (⟨"o1-custom", "model", some 200000⟩ : RemoteRecord)).maxTokenAllowed ≤ 128000 :=
  C4_context_cap
    [(⟨"o1-custom", "model", some 200000⟩ : RemoteRecord)] _
    (Or.inr (by decide))

/-- C5: the static catalog has exactly seven descriptors, each with
strictly positive `maxTokenAllowed` and `maxCompletionTokens`, and the
seven `name` fields are pairwise distinct. -/
theorem C5_static_catalog :
    staticModels.length = 7 ∧
    staticModels.all
      (fun m => decide (0 < m.maxTokenAllowed) && decide (0 < m.maxCompletionTokens)) = true ∧
    (staticModels.map fun m => m.name).Nodup := by
  decide

/-- C6: the record `{id: "gpt-4o-2025", object: "model"}` without
`context_length` is transformed into a descriptor with a 128000-token
window, 4096 completion tokens, and label `gpt-4o-2025 (128k context)`. -/
theorem C6_gpt4o_heuristic :
    transformModel (⟨"gpt-4o-2025", "model", none⟩ : RemoteRecord) =
      { name := "gpt-4o-2025", label := "gpt-4o-2025 (128k context)",
        provider := "NVIDIA", maxTokenAllowed := 128000, maxCompletionTokens := 4096 } := by
  decide

/-- C7: the record `{id: "o1-preview-v2", object: "model",
context_length: 200000}` is transformed into a descriptor whose
`maxTokenAllowed` is capped at 128000 and whose `maxCompletionTokens`
is 32000. -/
theorem C7_o1_cap :
    (transformModel (⟨"o1-preview-v2", "model", some 200000⟩ : RemoteRecord)).maxTokenAllowed = 128000 ∧
    (transformModel (⟨"o1-preview-v2", "model", some 200000⟩ : RemoteRecord)).maxCompletionTokens = 32000 := by
  decide

/-- C8: the handle returned by client construction is bound to the
resolved base URL when one resolves, and to the default
`https://integrate.api.nvidia.com/v1` when none does. -/
theorem C8_base_url_binding (model : String) (s : CredentialSources) :
    (∀ u, resolveBaseUrl s = some u → (getModelInstance model s).baseURL = u) ∧
    (resolveBaseUrl s = none →
      (getModelInstance model s).baseURL = "https://integrate.api.nvidia.com/v1") := by
  constructor
  · intro u hu
    have ht := jsTruthy_resolveFirst _ _ _ u hu
    simp only [getModelInstance, hu, ht, if_true]
  · intro hn
    simp only [getModelInstance, hn]

theorem C8_base_url_binding_witness :
    (getModelInstance "gpt-4o"
        { explicitApiKey := some "k", explicitBaseUrl := some "https://example.test/v1",
          settingsApiKey := none, settingsBaseUrl := none, envApiKey := none,
          envBaseUrl := none }).baseURL = "https://example.test/v1" ∧
    (getModelInstance "gpt-4o"
        { explicitApiKey := some "k", explicitBaseUrl := none, settingsApiKey := none,
          settingsBaseUrl := none, envApiKey := none, envBaseUrl := none }).baseURL =
      "https://integrate.api.nvidia.com/v1" :=
  ⟨(C8_base_url_binding "gpt-4o" _).1 "https://example.test/v1" (by decide),
   (C8_base_url_binding "gpt-4o" _).2 (by decide)⟩

/-- C9: for a remote record reporting a context length above 128000, the
label is computed from the uncapped value in thousands while
`maxTokenAllowed` is capped at 128000. -/
theorem C9_label_uncapped (m : RemoteRecord) (c : Nat)
    (hc : m.context_length = some c) (hgt : 128000 < c) :
    (transformModel m).label = m.id ++ " (" ++ toString (c / 1000) ++ "k context)" ∧
    (transformModel m).maxTokenAllowed = 128000 := by
  have hcw : contextWindowOf m = c := by
    unfold contextWindowOf
    rw [hc]
    have hne : c ≠ 0 := by omega
    simp [hne]
  refine ⟨?_, ?_⟩
  · simp only [transformModel, hcw]
  · simp only [transformModel, hcw]
    exact Nat.min_eq_right (Nat.le_of_lt hgt)

theorem C9_label_uncapped_witness :
    (transformModel (⟨"o1-custom", "model", some 200000⟩ : RemoteRecord)).label = "o1-custom (200k context)" ∧
    (transformModel (⟨"o1-custom", "model", some 200000⟩ : RemoteRecord)).maxTokenAllowed = 128000 := by
  have h := C9_label_uncapped
    (⟨"o1-custom", "model", some 200000⟩ : RemoteRecord)
    200000 rfl (by decide)
  exact ⟨h.1.trans (by decide), h.2⟩

/-- C10: the `o3`/`o4` substring rule precedes the `gpt-4o` rule in the
completion-token heuristic: a record whose id does not start with `o1` but
contains `o3` or `o4` gets 100000 completion tokens, even when the id also
contains `gpt-4o`. -/
theorem C10_o3_priority (m : RemoteRecord)
    (h1 : strStarts m.id "o1" = false)
    (h2 : strIncl m.id "o3" = true ∨ strIncl m.id "o4" = true) :
    (transformModel m).maxCompletionTokens = 100000 := by
  have hp : strStarts m.id "o1-preview" = false := by
    cases hx : strStarts m.id "o1-preview" with
    | false => rfl
    | true =>
      rw [strStarts_of_strStarts m.id "o1" "o1-preview" (by decide) hx] at h1
      exact Bool.noConfusion h1
  have hm : strStarts m.id "o1-mini" = false := by
    cases hx : strStarts m.id "o1-mini" with
    | false => rfl
    | true =>
      rw [strStarts_of_strStarts m.id "o1" "o1-mini" (by decide) hx] at h1
      exact Bool.noConfusion h1
  have hcond : (strIncl m.id "o3" || strIncl m.id "o4") = true := by
    rcases h2 with h2 | h2 <;> simp [h2]
  simp only [transformModel, maxCompletionTokensOf, hp, hm, h1, hcond,
    Bool.false_eq_true, if_false, if_true]

theorem C10_o3_priority_witness :
    (transformModel (⟨"gpt-4o3", "model", none⟩ : RemoteRecord)).maxCompletionTokens = 100000 :=
  C10_o3_priority (⟨"gpt-4o3", "model", none⟩ : RemoteRecord)
    (by decide) (Or.inl (by decide))

end Nvidia
